import Mathlib

/-!
EngineIQ core verification.

A shallow embedding, in Lean 4, of the query-orchestration core of the
EngineIQ repository: the permission policy evaluator and orchestration
graph (`backend/agents/nodes.py`, `backend/agents/graph.py`,
`backend/agents/state.py`) and the knowledge-gap / expertise heuristics
(`backend/services/qdrant_service.py`, `backend/config/qdrant_config.py`).

Modelling conventions:
- Python floats are modelled as rationals (`ℚ`).
- Python dict payloads are modelled as structures; a key read with
  `payload.get(k, d)` is modelled as a total field whose value stands for
  `d` when the key is absent, and a key read with `payload.get(k)`
  (default `None`) as an `Option` field.
- The dynamic `AgentState` dict is modelled as a structure.  List-valued
  fields that the source initialises to `None` but that every reader
  accesses as `state.get(key, [])` after an unconditional assignment
  earlier in the pipeline are modelled as plain lists (`None` identified
  with `[]`); `None`-sensitive scalar fields keep `Option`.
- External collaborators (Gemini, Qdrant search, Claude) are modelled as
  nondeterministic inputs: node handlers are relations whose success
  branches take the collaborator output as a parameter, and whose failure
  branches model the `except` handlers of the source.
- The Python runtime string hash (used for gap keys) is modelled as an
  arbitrary function parameter `h : String → Int`, since its value
  depends on the per-process hash seed.
-/

namespace EngineIQ

/-! ## List utilities

`pySortDescBy key` models Python `sorted(l, key=key, reverse=True)`:
a stable sort, descending by key.  It is implemented as a left fold of
stable descending insertion (each element is inserted after all already
placed elements of greater or equal key, which preserves the original
relative order of equal keys, exactly as CPython's stable sort does). -/

def insertDescBy (key : α → ℚ) (x : α) : List α → List α
  | [] => [x]
  | y :: ys => if key x ≤ key y then y :: insertDescBy key x ys else x :: y :: ys

def pySortDescBy (key : α → ℚ) (l : List α) : List α :=
  l.foldl (fun acc x => insertDescBy key x acc) []

/-- Python `str.split()`: split on whitespace, dropping empty pieces. -/
def pySplit (s : String) : List String :=
  (s.split (fun c => c.isWhitespace)).filter (fun p => p ≠ "")

/-- Python truthiness of an optional integer (`None` and `0` are falsy). -/
def pyTruthyInt (o : Option Int) : Bool :=
  o.getD 0 ≠ 0

/-! ## Configuration (`backend/config/qdrant_config.py`, class `QdrantConfig`) -/

namespace QdrantConfig

def GAP_MIN_SEARCH_COUNT : Nat := 10

def GAP_MAX_AVG_SCORE : ℚ := 4/10

def GAP_DETECTION_WINDOW_DAYS : Nat := 7

def GAP_HIGH_PRIORITY_USER_COUNT : Nat := 5

end QdrantConfig

/-! ## Expertise ledger (`QdrantService.get_expertise_data`) -/

/-- One evidence entry carried in an `expertise_map` payload.  The source
passes evidence items through untouched; the field layout follows the
repository's `EXPERTISE_MAP_PAYLOAD_SCHEMA` evidence dicts. -/
structure EvidenceItem where
  source : String
  action : String
  reference : String
  score : ℚ
  timestamp : Int
deriving DecidableEq

/-- A scored point returned by searching the `expertise_map` collection:
the payload fields read by `get_expertise_data`. -/
structure ExpertisePoint where
  user_id : String
  user_name : Option String
  expertise_score : ℚ
  evidence : List EvidenceItem
  topic : Option String
  last_contribution : Int
deriving DecidableEq

/-- One aggregated expert entry built by `get_expertise_data`. -/
structure ExpertEntry where
  user_id : String
  user_name : String
  total_score : ℚ
  evidence : List EvidenceItem
  topics : List (Option String)
deriving DecidableEq

/-- One loop iteration of `get_expertise_data`: insert a fresh zero entry
for an unseen `user_id` (as the Python dict branch does), then add the
point's score, extend its evidence and append its topic. -/
def addExpertisePoint (experts : List ExpertEntry) (r : ExpertisePoint) :
    List ExpertEntry :=
  let experts :=
    if experts.any (fun e => e.user_id == r.user_id) then experts
    else experts ++ [{ user_id := r.user_id,
                       user_name := r.user_name.getD r.user_id,
                       total_score := 0, evidence := [], topics := [] }]
  experts.map (fun e =>
    if e.user_id == r.user_id then
      { e with total_score := e.total_score + r.expertise_score,
               evidence := e.evidence ++ r.evidence,
               topics := e.topics ++ [r.topic] }
    else e)

/-- `QdrantService.get_expertise_data`, applied to the points returned by
the (external) vector search over `expertise_map`: aggregate by user id,
sum the raw `expertise_score` of each matching record, sort by total
score descending (Python's stable `sorted`, `reverse=True`) and keep the
first `limit` experts. -/
def get_expertise_data (results : List ExpertisePoint) (limit : Nat) :
    List ExpertEntry :=
  let experts := results.foldl addExpertisePoint []
  let ranked_experts := pySortDescBy (fun e => e.total_score) experts
  ranked_experts.take limit

/-- Modelled from the spec: the recency multiplier of `RECENCY_MULTIPLIERS`
in `qdrant_config.py` (30 days: 1.0, 30-90 days: 0.8, 90-180 days: 0.5).
This definition follows the spec's words; the source function
`get_expertise_data` never applies it.  Ages beyond 180 days are not
given a multiplier by the spec and keep the last band's value here; no
statement below depends on that case. -/
def spec_recency_multiplier (ageDays : Int) : ℚ :=
  if ageDays ≤ 30 then 1 else if ageDays ≤ 90 then 8/10 else 1/2

/-- Modelled from the spec: the decayed total score of a user over the
retrieved expertise records, "sum scores across evidence, apply a recency
decay".  Each record's contribution is its score times the recency
multiplier of its age in days at time `now`. -/
def spec_decayed_total_score (now : Int) (results : List ExpertisePoint)
    (uid : String) : ℚ :=
  ((results.filter (fun r => r.user_id == uid)).map
    (fun r => r.expertise_score *
      spec_recency_multiplier ((now - r.last_contribution) / 86400))).sum

/-! ## Knowledge gap detection (`QdrantService.detect_knowledge_gaps`) -/

/-- The payload fields of a `conversations` point that
`detect_knowledge_gaps` reads (`top_result_score` via `.get` with
default `0`, `user_id` via direct indexing). -/
structure ConvPayload where
  top_result_score : ℚ
  user_id : String
deriving DecidableEq

/-- The payload of a `knowledge_gaps` point, as created and updated by
`detect_knowledge_gaps`. -/
structure GapData where
  topic : String
  query_patterns : List String
  query_count : Nat
  unique_users : List String
  avg_result_quality : ℚ
  first_detected : Int
  last_query : Int
  priority : String
  suggested_action : String
  suggested_owner : Option String
  status : String
  related_docs : List String
deriving DecidableEq

/-- The gap ledger (`knowledge_gaps` collection), keyed by gap id. -/
abbrev GapStore := List (String × GapData)

/-- Qdrant `upsert` on the gap ledger: replace the payload under an
existing id, or append a new point. -/
def gapUpsert (store : GapStore) (k : String) (v : GapData) : GapStore :=
  if store.any (fun p => p.1 == k) then
    store.map (fun p => if p.1 == k then (k, v) else p)
  else store ++ [(k, v)]

/-- Qdrant `retrieve` of a gap id from the ledger. -/
def gapLookup (store : GapStore) (k : String) : Option GapData :=
  store.lookup k

/-- The gap id computed by `detect_knowledge_gaps`:
`f"gap_{abs(hash(query_text)) % 10**9}"`.  The Python builtin `hash` is
the runtime's seeded string hash, modelled as the parameter `h`. -/
def gapKey (h : String → Int) (query_text : String) : String :=
  "gap_" ++ toString ((h query_text).natAbs % 10 ^ 9)

/-- `QdrantService.detect_knowledge_gaps`, applied to the list of similar
historical queries returned by the (external) vector search over
`conversations` (called with `limit=20, score_threshold=0.8`).  Returns
the detected gap id (if any) together with the updated gap ledger. -/
def detect_knowledge_gaps (h : String → Int) (gaps : GapStore)
    (similar_queries : List ConvPayload) (query_text user_id : String)
    (now : Int) : Option String × GapStore :=
  if QdrantConfig.GAP_MIN_SEARCH_COUNT ≤ similar_queries.length then
    let scores := similar_queries.map (fun q => q.top_result_score)
    let avg_score : ℚ :=
      if scores.length = 0 then 0 else scores.sum / (scores.length : ℚ)
    if avg_score < QdrantConfig.GAP_MAX_AVG_SCORE then
      let gap_id := gapKey h query_text
      let gap_data : GapData :=
        match gapLookup gaps gap_id with
        | some g =>
            -- update path: increment count, append pattern, refresh
            -- timestamp; the distinct-user count is recomputed only to
            -- (possibly) raise the priority.
            let unique_users := ((g.unique_users ++ [user_id]).dedup).length
            { g with
              query_count := g.query_count + 1
              query_patterns := g.query_patterns ++ [query_text]
              last_query := now
              priority :=
                if QdrantConfig.GAP_HIGH_PRIORITY_USER_COUNT < unique_users
                then "high" else g.priority }
        | none =>
            let unique_users := (similar_queries.map (fun q => q.user_id)).dedup
            { topic := query_text
              query_patterns := [query_text]
              query_count := similar_queries.length
              unique_users := unique_users
              avg_result_quality := avg_score
              first_detected := now
              last_query := now
              priority :=
                if QdrantConfig.GAP_HIGH_PRIORITY_USER_COUNT < unique_users.length
                then "high" else "medium"
              suggested_action := "Create documentation on: " ++ query_text
              suggested_owner := none
              status := "detected"
              related_docs := [] }
      (some gap_id, gapUpsert gaps gap_id gap_data)
    else (none, gaps)
  else (none, gaps)

/-! ## Agent data model (`backend/agents/state.py`, payload schema of
`backend/config/qdrant_config.py`) -/

/-- The `permissions` sub-dict of a knowledge-base payload
(`KNOWLEDGE_BASE_PAYLOAD_SCHEMA`), with the `.get` defaults that
`permission_filter` applies (`sensitivity` defaults to `"public"`, the
restriction flags to `False`, the allow-lists to `[]`). -/
structure Permissions where
  visibility_public : Bool
  teams : List String
  users : List String
  sensitivity : String
  offshore_restricted : Bool
  third_party_restricted : Bool
deriving DecidableEq

/-- The payload fields of a knowledge-base point read by the nodes
(`title`, `content`, `url`, `source` default to the values used by the
readers when absent). -/
structure Payload where
  title : String
  content : String
  url : String
  source : String
  permissions : Permissions
deriving DecidableEq

/-- A scored search result (Qdrant `ScoredPoint`): id, similarity score
and payload. -/
structure Candidate where
  id : String
  score : ℚ
  payload : Payload
deriving DecidableEq

/-- One entry of `state['sensitive_results']`, as built by
`permission_filter`: the candidate, the rejection reason and the
candidate's sensitivity tier. -/
structure SensitiveEntry where
  result : Candidate
  reason : String
  sensitivity : String
deriving DecidableEq

/-- One entry of `state['citations']`, as built by `response_synthesis`. -/
structure Citation where
  number : Nat
  title : String
  url : String
  source : String
deriving DecidableEq

/-- The `suggested_content` sub-dict of a gap suggestion built by
`knowledge_gap_detection`. -/
structure SuggestedContent where
  title : String
  topics : List String
  questions_to_answer : List String
deriving DecidableEq

/-- The gap suggestion dict built by `knowledge_gap_detection`. -/
structure GapSuggestion where
  gap_id : String
  topic : String
  query_pattern : String
  priority : String
  suggested_action : String
  suggested_content : SuggestedContent
  suggested_owner : Option String
  detected_at : Int
deriving DecidableEq

/-- `AgentState` (`backend/agents/state.py`): the state dict flowing
through the graph.  See the modelling conventions in the header for the
treatment of `Optional` list fields. -/
structure AgentState where
  query : String
  user_id : String
  user_teams : List String
  user_location : Option String
  user_type : Option String
  intent : Option String
  entities : List String
  keywords : List String
  sources_needed : List String
  query_embedding : List ℚ
  search_results : List Candidate
  search_count : Nat
  filtered_results : List Candidate
  sensitive_results : List SensitiveEntry
  filtered_count : Nat
  approval_required : Bool
  approval_status : Option String
  approval_reason : Option String
  approver_id : Option String
  approval_timestamp : Option Int
  final_results : List Candidate
  final_count : Nat
  response : Option String
  citations : List Citation
  related_queries : List String
  expertise_suggestions : List ExpertEntry
  knowledge_gap_detected : Bool
  gap_reason : Option String
  gap_suggestion : Option GapSuggestion
  gap_approval_required : Bool
  gap_approval_status : Option String
  conversation_id : String
  feedback_saved : Bool
  start_timestamp : Option Int
  end_timestamp : Option Int
  response_time_ms : Option Int
  errors : List String
  current_node : Option String
  execution_path : List String
deriving DecidableEq

/-- `create_initial_state` (`backend/agents/state.py`).  The generated
`uuid4` conversation id and `int(time.time())` start timestamp are taken
as parameters. -/
def create_initial_state (query user_id : String) (user_teams : List String)
    (user_location user_type : String) (conversation_id : String)
    (start_timestamp : Int) : AgentState where
  query := query
  user_id := user_id
  user_teams := user_teams
  user_location := some user_location
  user_type := some user_type
  intent := none
  entities := []
  keywords := []
  sources_needed := []
  query_embedding := []
  search_results := []
  search_count := 0
  filtered_results := []
  sensitive_results := []
  filtered_count := 0
  approval_required := false
  approval_status := some "not_required"
  approval_reason := none
  approver_id := none
  approval_timestamp := none
  final_results := []
  final_count := 0
  response := none
  citations := []
  related_queries := []
  expertise_suggestions := []
  knowledge_gap_detected := false
  gap_reason := none
  gap_suggestion := none
  gap_approval_required := false
  gap_approval_status := some "not_required"
  conversation_id := conversation_id
  feedback_saved := false
  start_timestamp := some start_timestamp
  end_timestamp := none
  response_time_ms := none
  errors := []
  current_node := none
  execution_path := []

/-- The prologue every node executes before its `try` block:
`state['current_node'] = name; state['execution_path'].append(name)`. -/
def enterNode (s : AgentState) (name : String) : AgentState :=
  { s with current_node := some name, execution_path := s.execution_path ++ [name] }

/-! ## Node 4: permission filter (`AgentNodes.permission_filter`) -/

/-- The per-candidate check sequence of `permission_filter`: the first
matching restriction wins (`continue` after each append in the source),
`none` means the candidate passed all checks. -/
def classifyCandidate (user_id : String) (user_teams : List String)
    (user_location user_type : String) (c : Candidate) : Option String :=
  let permissions := c.payload.permissions
  if permissions.offshore_restricted && user_location != "US" then
    some "offshore_restricted"
  else if permissions.third_party_restricted &&
          (user_type == "contractor" || user_type == "third_party") then
    some "third_party_restricted"
  else if (permissions.sensitivity == "confidential" ||
           permissions.sensitivity == "restricted") &&
          !(permissions.users.contains user_id ||
            permissions.teams.any (fun team => user_teams.contains team)) then
    some "high_sensitivity"
  else
    none

/-- The result-partitioning loop of `permission_filter`: accepted
candidates go to `filtered` (in order), rejected ones to `sensitive`
(in order, wrapped with their reason and sensitivity tier). -/
def partitionResults (user_id : String) (user_teams : List String)
    (user_location user_type : String) :
    List Candidate → List Candidate × List SensitiveEntry
  | [] => ([], [])
  | c :: rest =>
    let parts := partitionResults user_id user_teams user_location user_type rest
    match classifyCandidate user_id user_teams user_location user_type c with
    | some reason =>
        (parts.1, ⟨c, reason, c.payload.permissions.sensitivity⟩ :: parts.2)
    | none => (c :: parts.1, parts.2)

/-- The `try` branch of `permission_filter`: partition the search
results, then set the approval flags (`approval_required=True`,
`approval_status='pending'` and a reason exactly when the sensitive list
is non-empty). -/
def permission_filter_success (s : AgentState) : AgentState :=
  let s0 := enterNode s "permission_filter"
  let user_location := s.user_location.getD "US"
  let user_type := s.user_type.getD "employee"
  let parts :=
    partitionResults s.user_id s.user_teams user_location user_type
      s.search_results
  let s1 := { s0 with filtered_results := parts.1,
                      sensitive_results := parts.2,
                      filtered_count := parts.1.length }
  if parts.2.isEmpty then
    { s1 with approval_required := false,
              approval_status := some "not_required" }
  else
    { s1 with approval_required := true,
              approval_status := some "pending",
              approval_reason := some ("Found " ++ toString parts.2.length ++
                " sensitive results requiring approval") }

/-- The `except` branch of `permission_filter`: record the error, pass
every search result through as accessible, clear the sensitive list, and
leave the approval fields untouched. -/
def permission_filter_error (s : AgentState) (msg : String) : AgentState :=
  let s0 := enterNode s "permission_filter"
  { s0 with errors := s0.errors ++ ["permission_filter: " ++ msg],
            filtered_results := s.search_results,
            sensitive_results := [],
            filtered_count := s.search_results.length }

/-! ## The remaining node handlers (`backend/agents/nodes.py`,
`backend/agents/graph.py`).  For each node the `_success` function is the
`try` branch with the collaborator output as a parameter, and the
`_error` function is the `except` branch. -/

def query_understanding_success (s : AgentState) (intent : String)
    (entities keywords data_sources : List String) : AgentState :=
  let s0 := enterNode s "query_understanding"
  { s0 with intent := some intent, entities := entities,
            keywords := keywords, sources_needed := data_sources }

def query_understanding_error (s : AgentState) (msg : String) : AgentState :=
  let s0 := enterNode s "query_understanding"
  { s0 with errors := s0.errors ++ ["query_understanding: " ++ msg],
            intent := some "search", entities := [],
            keywords := pySplit s.query, sources_needed := [] }

def embedding_generation_success (s : AgentState) (embedding : List ℚ) :
    AgentState :=
  let s0 := enterNode s "embedding_generation"
  { s0 with query_embedding := embedding }

def embedding_generation_error (s : AgentState) (msg : String) : AgentState :=
  let s0 := enterNode s "embedding_generation"
  { s0 with errors := s0.errors ++ ["embedding_generation: " ++ msg],
            query_embedding := List.replicate 768 0 }

def hybrid_search_success (s : AgentState) (results : List Candidate) :
    AgentState :=
  let s0 := enterNode s "hybrid_search"
  { s0 with search_results := results, search_count := results.length }

def hybrid_search_error (s : AgentState) (msg : String) : AgentState :=
  let s0 := enterNode s "hybrid_search"
  { s0 with errors := s0.errors ++ ["hybrid_search: " ++ msg],
            search_results := [], search_count := 0 }

def rerank_results_success (s : AgentState) : AgentState :=
  let s0 := enterNode s "rerank_results"
  if s.filtered_results.isEmpty then
    { s0 with final_results := [], final_count := 0 }
  else
    let top_results := (pySortDescBy (fun c => c.score) s.filtered_results).take 20
    { s0 with final_results := top_results, final_count := top_results.length }

def rerank_results_error (s : AgentState) (msg : String) : AgentState :=
  let s0 := enterNode s "rerank_results"
  { s0 with errors := s0.errors ++ ["rerank_results: " ++ msg],
            final_results := s.filtered_results.take 20,
            final_count := (s.filtered_results.take 20).length }

/-- The citation list built by `response_synthesis` from the top 10
results (`enumerate(results[:10], 1)`). -/
def buildCitations (results : List Candidate) : List Citation :=
  (results.take 10).enum.map (fun p =>
    ⟨p.1 + 1, p.2.payload.title, p.2.payload.url, p.2.payload.source⟩)

/-- `AgentNodes._fallback_response`. -/
def fallback_response (results : List Candidate) : String :=
  match results with
  | [] => "No relevant information found."
  | r :: _ =>
      "Based on '" ++ r.payload.title ++ "': " ++
        (r.payload.content.take 500) ++ "... [1]"

/-- `response_synthesis`, early return when there are no final results. -/
def response_synthesis_empty (s : AgentState) : AgentState :=
  let s0 := enterNode s "response_synthesis"
  { s0 with
    response := some ("I couldn't find any relevant information for " ++
      "your query. This might indicate a knowledge gap."),
    citations := [], related_queries := [] }

/-- `response_synthesis`, Claude answered: the parsed answer and related
questions are collaborator output. -/
def response_synthesis_answered (s : AgentState) (answer : String)
    (related : List String) : AgentState :=
  let s0 := enterNode s "response_synthesis"
  { s0 with response := some answer, related_queries := related,
            citations := buildCitations s.final_results }

/-- `response_synthesis`, fallback path (no Claude client, or the API
call failed). -/
def response_synthesis_fallback (s : AgentState) : AgentState :=
  let s0 := enterNode s "response_synthesis"
  { s0 with response := some (fallback_response s.final_results),
            related_queries := [],
            citations := buildCitations s.final_results }

def response_synthesis_error (s : AgentState) (msg : String) : AgentState :=
  let s0 := enterNode s "response_synthesis"
  { s0 with errors := s0.errors ++ ["response_synthesis: " ++ msg],
            response := some "I encountered an error generating the response.",
            citations := [], related_queries := [] }

/-- The response-time bookkeeping at the top of `feedback_learning`
(guarded by Python truthiness of the timestamps). -/
def updateTimestamps (s : AgentState) (now : Int) : AgentState :=
  if pyTruthyInt s.start_timestamp && !pyTruthyInt s.end_timestamp then
    { s with end_timestamp := some now,
             response_time_ms := some ((now - s.start_timestamp.getD 0) * 1000) }
  else s

def feedback_learning_success (s : AgentState) (now : Int) : AgentState :=
  let s0 := updateTimestamps (enterNode s "feedback_learning") now
  { s0 with feedback_saved := true }

/-- `feedback_learning` `except` branch.  The timestamp update precedes
the only throwing statements (payload construction and the Qdrant index
call), so it is applied here as well. -/
def feedback_learning_error (s : AgentState) (now : Int) (msg : String) :
    AgentState :=
  let s0 := updateTimestamps (enterNode s "feedback_learning") now
  { s0 with errors := s0.errors ++ ["feedback_learning: " ++ msg],
            feedback_saved := false }

/-- The gap condition of the `knowledge_gap_detection` node: reason
`no_results_found` when the final count is zero, `low_quality_results`
when the final results exist with mean score below `0.4`. -/
def node_gap_reason (s : AgentState) : Option String :=
  if s.final_count = 0 then some "no_results_found"
  else if !s.final_results.isEmpty then
    let avg_score :=
      (s.final_results.map (fun r => r.score)).sum / (s.final_results.length : ℚ)
    if avg_score < 4/10 then some "low_quality_results" else none
  else none

def knowledge_gap_detection_success (s : AgentState) (now : Int) : AgentState :=
  let s0 := enterNode s "knowledge_gap_detection"
  match node_gap_reason s with
  | some reason =>
      let suggestion : GapSuggestion :=
        { gap_id := "gap_" ++ s.conversation_id
          topic := if !s.entities.isEmpty
                   then String.intercalate " " (s.entities.take 3) else s.query
          query_pattern := s.query
          priority := if s.final_count = 0 then "high" else "medium"
          suggested_action := "create_documentation"
          suggested_content :=
            { title := "Documentation: " ++ s.query
              topics := s.entities ++ s.keywords
              questions_to_answer := [s.query] }
          suggested_owner := none
          detected_at := now }
      { s0 with knowledge_gap_detected := true, gap_reason := some reason,
                gap_suggestion := some suggestion,
                gap_approval_required := true,
                gap_approval_status := some "pending" }
  | none =>
      { s0 with knowledge_gap_detected := false, gap_reason := none,
                gap_approval_required := false,
                gap_approval_status := some "not_required" }

/-- `knowledge_gap_detection` `except` branch: only the detection flag is
reset. -/
def knowledge_gap_detection_error (s : AgentState) (msg : String) : AgentState :=
  let s0 := enterNode s "knowledge_gap_detection"
  { s0 with errors := s0.errors ++ ["knowledge_gap_detection: " ++ msg],
            knowledge_gap_detected := false }

/-- Special node `wait_for_approval`: records its visit; the approval
resolution itself arrives externally. -/
def wait_for_approval_handler (s : AgentState) : AgentState :=
  enterNode s "wait_for_approval"

/-- Special node `wait_for_gap_approval`. -/
def wait_for_gap_approval_handler (s : AgentState) : AgentState :=
  enterNode s "wait_for_gap_approval"

/-- Special node `approval_rejected`: fixed access-denied answer, empty
result and citation lists. -/
def approval_rejected_handler (s : AgentState) : AgentState :=
  let s0 := enterNode s "approval_rejected"
  { s0 with
    response := some ("Access to some results was denied due to permissions. " ++
      "Please contact your administrator if you believe you should have access."),
    final_results := [], final_count := 0, citations := [] }

/-! ## Graph wiring (`create_agent_graph` and the routing functions of
`backend/agents/graph.py`) -/

/-- `route_after_permission_filter`. -/
def route_after_permission_filter (s : AgentState) : String :=
  if s.approval_required && (s.approval_status == some "pending") then
    "wait_approval"
  else "continue"

/-- `route_after_approval` (`approval_status` read with default
`'pending'`). -/
def route_after_approval (s : AgentState) : String :=
  let status := s.approval_status.getD "pending"
  if status == "approved" then "approved"
  else if status == "rejected" then "rejected"
  else "pending"

/-- `route_after_gap_detection`. -/
def route_after_gap_detection (s : AgentState) : String :=
  if s.gap_approval_required && (s.gap_approval_status == some "pending") then
    "wait_gap_approval"
  else "end"

/-- The graph nodes registered in `create_agent_graph`; `terminal` is
LangGraph's `END`. -/
inductive Node where
  | query_understanding
  | embedding_generation
  | hybrid_search
  | permission_filter
  | rerank_results
  | response_synthesis
  | feedback_learning
  | knowledge_gap_detection
  | wait_for_approval
  | wait_for_gap_approval
  | approval_rejected
  | terminal
deriving DecidableEq

/-- The conditional-edge mapping after `permission_filter`. -/
def permissionFilterTarget (route : String) : Node :=
  if route == "wait_approval" then .wait_for_approval else .rerank_results

/-- The conditional-edge mapping after `wait_for_approval`. -/
def approvalTarget (route : String) : Node :=
  if route == "approved" then .rerank_results
  else if route == "rejected" then .approval_rejected
  else .wait_for_approval

/-- The conditional-edge mapping after `knowledge_gap_detection`. -/
def gapTarget (route : String) : Node :=
  if route == "wait_gap_approval" then .wait_for_gap_approval else .terminal

/-- The state mutation performed by `resume_after_approval` before
re-invoking the graph. -/
def set_approval_resolution (s : AgentState) (approval_status approver_id : String)
    (ts : Int) : AgentState :=
  { s with approval_status := some approval_status,
           approver_id := some approver_id,
           approval_timestamp := some ts }

/-- One execution step of the compiled graph: a configuration is the node
about to run paired with the current state.  Each node constructor runs
the handler (success or `except` branch) and follows the (conditional)
edge evaluated on the handler's output, as wired in `create_agent_graph`.
`approval_resolution` models the external approval action on a session
parked at `wait_for_approval` (the mutation of `resume_after_approval`). -/
inductive Step : Node × AgentState → Node × AgentState → Prop
  | query_understanding_ok (s : AgentState) (intent : String)
      (entities keywords data_sources : List String) :
      Step (.query_understanding, s)
        (.embedding_generation,
          query_understanding_success s intent entities keywords data_sources)
  | query_understanding_err (s : AgentState) (msg : String) :
      Step (.query_understanding, s)
        (.embedding_generation, query_understanding_error s msg)
  | embedding_ok (s : AgentState) (embedding : List ℚ) :
      Step (.embedding_generation, s)
        (.hybrid_search, embedding_generation_success s embedding)
  | embedding_err (s : AgentState) (msg : String) :
      Step (.embedding_generation, s)
        (.hybrid_search, embedding_generation_error s msg)
  | search_ok (s : AgentState) (results : List Candidate) :
      Step (.hybrid_search, s)
        (.permission_filter, hybrid_search_success s results)
  | search_err (s : AgentState) (msg : String) :
      Step (.hybrid_search, s)
        (.permission_filter, hybrid_search_error s msg)
  | filter_ok (s : AgentState) :
      Step (.permission_filter, s)
        (permissionFilterTarget
          (route_after_permission_filter (permission_filter_success s)),
         permission_filter_success s)
  | filter_err (s : AgentState) (msg : String) :
      Step (.permission_filter, s)
        (permissionFilterTarget
          (route_after_permission_filter (permission_filter_error s msg)),
         permission_filter_error s msg)
  | approval_resolution (s : AgentState) (status approver : String) (ts : Int) :
      Step (.wait_for_approval, s)
        (.wait_for_approval, set_approval_resolution s status approver ts)
  | wait_approval (s : AgentState) :
      Step (.wait_for_approval, s)
        (approvalTarget (route_after_approval (wait_for_approval_handler s)),
         wait_for_approval_handler s)
  | rerank_ok (s : AgentState) :
      Step (.rerank_results, s) (.response_synthesis, rerank_results_success s)
  | rerank_err (s : AgentState) (msg : String) :
      Step (.rerank_results, s) (.response_synthesis, rerank_results_error s msg)
  | synthesis_empty (s : AgentState) (h : s.final_results = []) :
      Step (.response_synthesis, s) (.feedback_learning, response_synthesis_empty s)
  | synthesis_answered (s : AgentState) (answer : String) (related : List String)
      (h : s.final_results ≠ []) :
      Step (.response_synthesis, s)
        (.feedback_learning, response_synthesis_answered s answer related)
  | synthesis_fallback (s : AgentState) (h : s.final_results ≠ []) :
      Step (.response_synthesis, s)
        (.feedback_learning, response_synthesis_fallback s)
  | synthesis_err (s : AgentState) (msg : String) :
      Step (.response_synthesis, s)
        (.feedback_learning, response_synthesis_error s msg)
  | feedback_ok (s : AgentState) (now : Int) :
      Step (.feedback_learning, s)
        (.knowledge_gap_detection, feedback_learning_success s now)
  | feedback_err (s : AgentState) (now : Int) (msg : String) :
      Step (.feedback_learning, s)
        (.knowledge_gap_detection, feedback_learning_error s now msg)
  | gap_detect_ok (s : AgentState) (now : Int) :
      Step (.knowledge_gap_detection, s)
        (gapTarget
          (route_after_gap_detection (knowledge_gap_detection_success s now)),
         knowledge_gap_detection_success s now)
  | gap_detect_err (s : AgentState) (msg : String) :
      Step (.knowledge_gap_detection, s)
        (gapTarget
          (route_after_gap_detection (knowledge_gap_detection_error s msg)),
         knowledge_gap_detection_error s msg)
  | wait_gap (s : AgentState) :
      Step (.wait_for_gap_approval, s)
        (.terminal, wait_for_gap_approval_handler s)
  | rejected (s : AgentState) :
      Step (.approval_rejected, s) (.terminal, approval_rejected_handler s)

/-- Multi-step graph execution. -/
def Reaches : Node × AgentState → Node × AgentState → Prop :=
  Relation.ReflTransGen Step

/-! ## Resumption (`resume_after_approval` in `backend/agents/graph.py`) -/

/-- The errors `resume_after_approval` can raise: only the `ValueError`
for a missing thread id.  The source defines no other error for this
path (in particular no error type for terminal sessions). -/
inductive ResumeError where
  | valueError (msg : String)
deriving DecidableEq

/-- `resume_after_approval`: read the checkpointed state of the thread
(`graph.get_state`), raise `ValueError` when there is none, otherwise
update the approval fields and re-invoke the graph (`graph.invoke`,
taken as the parameter `invoke`). -/
def resume_after_approval (invoke : AgentState → AgentState)
    (get_state : String → Option AgentState) (thread_id : String)
    (approval_status approver_id : String) (now : Int) :
    Except ResumeError AgentState :=
  match get_state thread_id with
  | none => .error (.valueError ("No state found for thread_id: " ++ thread_id))
  | some state =>
      .ok (invoke (set_approval_resolution state approval_status approver_id now))

/-! ## Statement helpers -/

/-- The knowledge-gap branch condition of `detect_knowledge_gaps`: at
least `GAP_MIN_SEARCH_COUNT` similar historical queries whose mean
recorded `top_result_score` is strictly below `GAP_MAX_AVG_SCORE`. -/
abbrev gapCondition (similar_queries : List ConvPayload) : Prop :=
  QdrantConfig.GAP_MIN_SEARCH_COUNT ≤ similar_queries.length ∧
    (if similar_queries.length = 0 then (0 : ℚ)
     else (similar_queries.map (fun q => q.top_result_score)).sum /
            (similar_queries.length : ℚ)) < QdrantConfig.GAP_MAX_AVG_SCORE

/-- The inductive invariant behind the approval gate: before the
permission filter has run the approval flag is still down; past it,
a raised approval flag implies the wait node has been visited. -/
def ApprovalWaitInv : Node × AgentState → Prop := fun c =>
  match c.1 with
  | .query_understanding => c.2.approval_required = false
  | .embedding_generation => c.2.approval_required = false
  | .hybrid_search => c.2.approval_required = false
  | .permission_filter => c.2.approval_required = false
  | .wait_for_approval => True
  | _ => c.2.approval_required = true → "wait_for_approval" ∈ c.2.execution_path

/-! ## Concrete fixtures used by witnesses and counterexamples -/

def wPermsPublic : Permissions := ⟨true, [], [], "public", false, false⟩

def wPermsOffshore : Permissions :=
  ⟨false, ["teamA"], ["bob"], "confidential", true, true⟩

def wCand (i : String) (sc : ℚ) (p : Permissions) : Candidate :=
  ⟨i, sc, ⟨"title", "content", "url", "slack", p⟩⟩

def wFilterState : AgentState :=
  { create_initial_state "how to rollback a database migration" "alice"
      ["teamB"] "India" "contractor" "conv1" 100 with
    search_results := [wCand "d1" 1 wPermsPublic,
                       wCand "d2" 2 wPermsOffshore] }

/-- A run that pauses for approval and is then approved: the states along
the witness trace for the approval gate. -/
def w0 : AgentState := create_initial_state "q" "u" [] "IN" "employee" "c" 1

def w1 : AgentState := query_understanding_success w0 "search" [] [] []

def w2 : AgentState := embedding_generation_success w1 []

def w3 : AgentState := hybrid_search_success w2 [wCand "d2" 2 wPermsOffshore]

def w4 : AgentState := permission_filter_success w3

def w5 : AgentState := set_approval_resolution w4 "approved" "boss" 2

def w6 : AgentState := wait_for_approval_handler w5

def w7 : AgentState := rerank_results_success w6

/-- A run that completes without an approval suspension (empty search
results, which also trigger the fire-and-forget gap branch at the end):
the states along the trace that produces a terminal session. -/
def t0 : AgentState := create_initial_state "q2" "u2" [] "US" "employee" "c2" 3

def t1 : AgentState := query_understanding_success t0 "search" [] [] []

def t2 : AgentState := embedding_generation_success t1 []

def t3 : AgentState := hybrid_search_success t2 []

def t4 : AgentState := permission_filter_success t3

def t5 : AgentState := rerank_results_success t4

def t6 : AgentState := response_synthesis_empty t5

def t7 : AgentState := feedback_learning_success t6 4

def t8 : AgentState := knowledge_gap_detection_success t7 5

def t9 : AgentState := wait_for_gap_approval_handler t8

/-- A checkpoint store holding the terminal session `t9` under thread
id `th1`. -/
def wTerminalGetState : String → Option AgentState :=
  fun t => if t == "th1" then some t9 else none

def wHash : String → Int := fun _ => 42

def wConvs : List ConvPayload := List.replicate 12 ⟨0, "u0"⟩

def wGap0 : GapData :=
  ⟨"t", ["q0"], 12, ["u1"], 35/100, 1, 1, "medium", "a", none, "detected", []⟩

def wGapAfter : GapData :=
  { wGap0 with query_count := 13, query_patterns := ["q0", "q"], last_query := 50 }

def wAlicePt : ExpertisePoint :=
  ⟨"alice", some "Alice", 10, [], some "kubernetes", 100 * 86400⟩

def wBobPt : ExpertisePoint :=
  ⟨"bob", some "Bob", 9, [], some "kubernetes", 195 * 86400⟩

def wAliceEntry : ExpertEntry := ⟨"alice", "Alice", 10, [], [some "kubernetes"]⟩

def wBobEntry : ExpertEntry := ⟨"bob", "Bob", 9, [], [some "kubernetes"]⟩

/-! ## Lemmas about the permission filter partition -/

theorem partitionResults_count (user_id : String) (user_teams : List String)
    (user_location user_type : String) (l : List Candidate) (c : Candidate) :
    (partitionResults user_id user_teams user_location user_type l).1.count c +
      ((partitionResults user_id user_teams user_location user_type l).2.map
        (fun e => e.result)).count c = l.count c := by
  induction l with
  | nil => simp [partitionResults]
  | cons hd tl ih =>
    cases hcl : classifyCandidate user_id user_teams user_location user_type hd with
    | none =>
      simp only [partitionResults, hcl, List.count_cons]
      omega
    | some r =>
      simp only [partitionResults, hcl, List.map_cons, List.count_cons]
      omega

theorem mem_partition_fst (user_id : String) (user_teams : List String)
    (user_location user_type : String) (l : List Candidate) (c : Candidate)
    (hc : c ∈ (partitionResults user_id user_teams user_location user_type l).1) :
    classifyCandidate user_id user_teams user_location user_type c = none := by
  induction l with
  | nil => simp [partitionResults] at hc
  | cons hd tl ih =>
    cases hcl : classifyCandidate user_id user_teams user_location user_type hd with
    | none =>
      simp only [partitionResults, hcl, List.mem_cons] at hc
      rcases hc with rfl | hc
      · exact hcl
      · exact ih hc
    | some r =>
      simp only [partitionResults, hcl] at hc
      exact ih hc

theorem mem_partition_snd (user_id : String) (user_teams : List String)
    (user_location user_type : String) (l : List Candidate) (e : SensitiveEntry)
    (he : e ∈ (partitionResults user_id user_teams user_location user_type l).2) :
    classifyCandidate user_id user_teams user_location user_type e.result =
      some e.reason ∧
    e.sensitivity = e.result.payload.permissions.sensitivity := by
  induction l with
  | nil => simp [partitionResults] at he
  | cons hd tl ih =>
    cases hcl : classifyCandidate user_id user_teams user_location user_type hd with
    | none =>
      simp only [partitionResults, hcl] at he
      exact ih he
    | some r =>
      simp only [partitionResults, hcl, List.mem_cons] at he
      rcases he with rfl | he
      · exact ⟨hcl, rfl⟩
      · exact ih he

theorem partition_snd_mem (user_id : String) (user_teams : List String)
    (user_location user_type : String) (l : List Candidate) (c : Candidate)
    (r : String) (hmem : c ∈ l)
    (hc : classifyCandidate user_id user_teams user_location user_type c = some r) :
    (⟨c, r, c.payload.permissions.sensitivity⟩ : SensitiveEntry) ∈
      (partitionResults user_id user_teams user_location user_type l).2 := by
  induction l with
  | nil => simp at hmem
  | cons hd tl ih =>
    rcases List.mem_cons.mp hmem with rfl | hmem
    · simp [partitionResults, hc]
    · cases hcl : classifyCandidate user_id user_teams user_location user_type hd with
      | none =>
        simp only [partitionResults, hcl]
        exact ih hmem
      | some r2 =>
        simp only [partitionResults, hcl, List.mem_cons]
        exact Or.inr (ih hmem)

/-- Field characterisation of the success branch of `permission_filter`. -/
theorem pf_success_fields (s : AgentState) :
    (permission_filter_success s).filtered_results =
      (partitionResults s.user_id s.user_teams (s.user_location.getD "US")
        (s.user_type.getD "employee") s.search_results).1 ∧
    (permission_filter_success s).sensitive_results =
      (partitionResults s.user_id s.user_teams (s.user_location.getD "US")
        (s.user_type.getD "employee") s.search_results).2 ∧
    (permission_filter_success s).approval_required =
      !(partitionResults s.user_id s.user_teams (s.user_location.getD "US")
        (s.user_type.getD "employee") s.search_results).2.isEmpty := by
  unfold permission_filter_success
  by_cases hE : (partitionResults s.user_id s.user_teams
      (s.user_location.getD "US") (s.user_type.getD "employee")
      s.search_results).2.isEmpty <;>
    simp [hE, enterNode]

/-- C1: the permission filter partitions the search candidates: counting
multiplicity, every input candidate lands in exactly one of
`filtered_results` and `sensitive_results` (each sensitive entry wrapping
one candidate with a reason), the two lists share no candidate, and
`approval_required` is set exactly when the sensitive list is
non-empty. -/
theorem permission_filter_partitions (s : AgentState) :
    (∀ c : Candidate,
      (permission_filter_success s).filtered_results.count c +
        ((permission_filter_success s).sensitive_results.map
          (fun e => e.result)).count c = s.search_results.count c) ∧
    (∀ c ∈ (permission_filter_success s).filtered_results,
      c ∉ (permission_filter_success s).sensitive_results.map
            (fun e => e.result)) ∧
    ((permission_filter_success s).approval_required = true ↔
      (permission_filter_success s).sensitive_results ≠ []) := by
  obtain ⟨hf, hs, ha⟩ := pf_success_fields s
  refine ⟨?_, ?_, ?_⟩
  · intro c
    rw [hf, hs]
    exact partitionResults_count _ _ _ _ _ c
  · intro c hcf hcs
    rw [hf] at hcf
    rw [hs] at hcs
    have hnone := mem_partition_fst _ _ _ _ _ c hcf
    rcases List.mem_map.mp hcs with ⟨e, he, rfl⟩
    have hsome := (mem_partition_snd _ _ _ _ _ e he).1
    rw [hnone] at hsome
    cases hsome
  · rw [ha, hs]
    cases hE : (partitionResults s.user_id s.user_teams
        (s.user_location.getD "US") (s.user_type.getD "employee")
        s.search_results).2 <;> simp

/-- Witness for C1 at a concrete state with one accessible and one
sensitive candidate. -/
theorem permission_filter_partitions_witness :
    (permission_filter_success wFilterState).filtered_results.count
        (wCand "d2" 2 wPermsOffshore) +
      ((permission_filter_success wFilterState).sensitive_results.map
        (fun e => e.result)).count (wCand "d2" 2 wPermsOffshore) =
      wFilterState.search_results.count (wCand "d2" 2 wPermsOffshore) ∧
    wCand "d1" 1 wPermsPublic ∉
      (permission_filter_success wFilterState).sensitive_results.map
        (fun e => e.result) ∧
    (permission_filter_success wFilterState).sensitive_results ≠ [] :=
  ⟨(permission_filter_partitions wFilterState).1 _,
   (permission_filter_partitions wFilterState).2.1 _ (by decide),
   ((permission_filter_partitions wFilterState).2.2).mp (by decide)⟩

/-- C2: an offshore-restricted candidate queried by a requester whose
location is not the home region `US` is classified sensitive with reason
`offshore_restricted` — this check fires first, so every sensitive entry
wrapping this candidate carries exactly that reason regardless of the
third-party and sensitivity-tier conditions — and approval is required. -/
theorem offshore_restriction_precedence (s : AgentState) (c : Candidate)
    (hmem : c ∈ s.search_results)
    (hoff : c.payload.permissions.offshore_restricted = true)
    (hloc : s.user_location.getD "US" ≠ "US") :
    classifyCandidate s.user_id s.user_teams (s.user_location.getD "US")
        (s.user_type.getD "employee") c = some "offshore_restricted" ∧
    (⟨c, "offshore_restricted", c.payload.permissions.sensitivity⟩ :
        SensitiveEntry) ∈ (permission_filter_success s).sensitive_results ∧
    (∀ e ∈ (permission_filter_success s).sensitive_results,
      e.result = c → e.reason = "offshore_restricted") ∧
    (permission_filter_success s).approval_required = true := by
  obtain ⟨hf, hs, ha⟩ := pf_success_fields s
  have hcl : classifyCandidate s.user_id s.user_teams (s.user_location.getD "US")
      (s.user_type.getD "employee") c = some "offshore_restricted" := by
    unfold classifyCandidate
    simp [hoff, hloc]
  have hin := partition_snd_mem s.user_id s.user_teams (s.user_location.getD "US")
    (s.user_type.getD "employee") s.search_results c "offshore_restricted"
    hmem hcl
  refine ⟨hcl, by rw [hs]; exact hin, ?_, ?_⟩
  · intro e he hec
    rw [hs] at he
    have := (mem_partition_snd _ _ _ _ _ e he).1
    rw [hec, hcl] at this
    exact (Option.some.injEq _ _ ▸ this).symm
  · rw [ha]
    cases hE : (partitionResults s.user_id s.user_teams
        (s.user_location.getD "US") (s.user_type.getD "employee")
        s.search_results).2 with
    | nil => rw [hE] at hin; simp at hin
    | cons x xs => simp

/-- Witness for C2: an offshore requester receiving an
offshore-restricted document. -/
theorem offshore_restriction_precedence_witness :
    (⟨wCand "d2" 2 wPermsOffshore, "offshore_restricted", "confidential"⟩ :
        SensitiveEntry) ∈ (permission_filter_success wFilterState).sensitive_results ∧
    (permission_filter_success wFilterState).approval_required = true :=
  ⟨(offshore_restriction_precedence wFilterState (wCand "d2" 2 wPermsOffshore)
      (by decide) (by decide) (by decide)).2.1,
   (offshore_restriction_precedence wFilterState (wCand "d2" 2 wPermsOffshore)
      (by decide) (by decide) (by decide)).2.2.2⟩

/-- C5: the `except` branch of the permission filter fails open — it
records the error, passes the whole unfiltered search-result list through
as accessible, empties the sensitive list, and leaves the approval flag
and approval status at their prior values. -/
theorem permission_filter_fails_open (s : AgentState) (msg : String) :
    (permission_filter_error s msg).filtered_results = s.search_results ∧
    (permission_filter_error s msg).sensitive_results = [] ∧
    (permission_filter_error s msg).filtered_count = s.search_results.length ∧
    (permission_filter_error s msg).approval_required = s.approval_required ∧
    (permission_filter_error s msg).approval_status = s.approval_status ∧
    (permission_filter_error s msg).errors =
      s.errors ++ ["permission_filter: " ++ msg] := by
  unfold permission_filter_error enterNode
  exact ⟨rfl, rfl, rfl, rfl, rfl, rfl⟩

/-- C4: the `approval_rejected` node leads only to `END`, with the fixed
access-denied response, empty citations and empty final results. -/
theorem approval_rejected_terminal_denied (s : AgentState)
    (c' : Node × AgentState) (h : Step (.approval_rejected, s) c') :
    c'.1 = .terminal ∧
    c'.2.response = some ("Access to some results was denied due to permissions. " ++
      "Please contact your administrator if you believe you should have access.") ∧
    c'.2.citations = [] ∧
    c'.2.final_results = [] ∧
    c'.2.final_count = 0 := by
  cases h
  exact ⟨rfl, rfl, rfl, rfl, rfl⟩

/-! ## The approval gate invariant (C3) -/

/-- Status characterisation of the success branch of `permission_filter`. -/
theorem pf_success_status (s : AgentState) :
    (permission_filter_success s).approval_status =
      (if (partitionResults s.user_id s.user_teams (s.user_location.getD "US")
            (s.user_type.getD "employee") s.search_results).2.isEmpty
       then some "not_required" else some "pending") := by
  unfold permission_filter_success
  by_cases hE : (partitionResults s.user_id s.user_teams
      (s.user_location.getD "US") (s.user_type.getD "employee")
      s.search_results).2.isEmpty <;>
    simp [hE, enterNode]

/-- `updateTimestamps` touches neither the approval flag nor the
execution path. -/
theorem updateTimestamps_pres (s : AgentState) (now : Int) :
    (updateTimestamps s now).approval_required = s.approval_required ∧
    (updateTimestamps s now).execution_path = s.execution_path := by
  unfold updateTimestamps
  split <;> exact ⟨rfl, rfl⟩

/-- `rerank_results` (success) touches neither the approval flag nor the
prefix of the execution path. -/
theorem rerank_success_pres (s : AgentState) :
    (rerank_results_success s).approval_required = s.approval_required ∧
    (rerank_results_success s).execution_path =
      s.execution_path ++ ["rerank_results"] := by
  by_cases hE : s.filtered_results.isEmpty = true <;>
    simp [rerank_results_success, enterNode, hE]

/-- `knowledge_gap_detection` (success) touches neither the approval flag
nor the prefix of the execution path. -/
theorem kgd_success_pres (s : AgentState) (now : Int) :
    (knowledge_gap_detection_success s now).approval_required = s.approval_required ∧
    (knowledge_gap_detection_success s now).execution_path =
      s.execution_path ++ ["knowledge_gap_detection"] := by
  unfold knowledge_gap_detection_success
  cases node_gap_reason s <;> exact ⟨rfl, rfl⟩

/-- Transport of the past-the-filter invariant along a handler that keeps
the approval flag and only appends to the execution path. -/
theorem inv_default_extend (s s' : AgentState)
    (hreq : s'.approval_required = s.approval_required)
    (hpath : ∃ t, s'.execution_path = s.execution_path ++ t)
    (hinv : s.approval_required = true → "wait_for_approval" ∈ s.execution_path) :
    s'.approval_required = true → "wait_for_approval" ∈ s'.execution_path := by
  intro hr
  rcases hpath with ⟨t, ht⟩
  rw [ht]
  exact List.mem_append_left _ (hinv (hreq ▸ hr))

/-- The approval-gate invariant is preserved by every graph step. -/
theorem approvalWaitInv_step (c c' : Node × AgentState)
    (hinv : ApprovalWaitInv c) (hstep : Step c c') : ApprovalWaitInv c' := by
  cases hstep with
  | query_understanding_ok s intent entities keywords data_sources => exact hinv
  | query_understanding_err s msg => exact hinv
  | embedding_ok s embedding => exact hinv
  | embedding_err s msg => exact hinv
  | search_ok s results => exact hinv
  | search_err s msg => exact hinv
  | filter_ok s =>
      obtain ⟨hf, hs, ha⟩ := pf_success_fields s
      have hst := pf_success_status s
      cases hE : (partitionResults s.user_id s.user_teams
          (s.user_location.getD "US") (s.user_type.getD "employee")
          s.search_results).2.isEmpty with
      | true =>
        have hreq : (permission_filter_success s).approval_required = false := by
          rw [ha, hE]; rfl
        simp [ApprovalWaitInv, route_after_permission_filter,
          permissionFilterTarget, hreq]
      | false =>
        have hreq : (permission_filter_success s).approval_required = true := by
          rw [ha, hE]; rfl
        rw [hE] at hst
        simp only [Bool.false_eq_true, if_false] at hst
        simp [ApprovalWaitInv, route_after_permission_filter,
          permissionFilterTarget, hreq, hst]
  | filter_err s msg =>
      have hreq : (permission_filter_error s msg).approval_required = false := hinv
      simp [ApprovalWaitInv, route_after_permission_filter,
        permissionFilterTarget, hreq]
  | approval_resolution s status approver ts =>
      exact trivial
  | wait_approval s =>
      have hmem : "wait_for_approval" ∈ (wait_for_approval_handler s).execution_path := by
        simp [wait_for_approval_handler, enterNode]
      by_cases h1 : (route_after_approval (wait_for_approval_handler s) ==
          "approved") = true
      · unfold approvalTarget
        rw [if_pos h1]
        exact fun _ => hmem
      · by_cases h2 : (route_after_approval (wait_for_approval_handler s) ==
            "rejected") = true
        · unfold approvalTarget
          rw [if_neg h1, if_pos h2]
          exact fun _ => hmem
        · unfold approvalTarget
          rw [if_neg h1, if_neg h2]
          exact trivial
  | rerank_ok s =>
      exact inv_default_extend s (rerank_results_success s)
        (rerank_success_pres s).1 ⟨["rerank_results"], (rerank_success_pres s).2⟩ hinv
  | rerank_err s msg =>
      exact inv_default_extend s (rerank_results_error s msg) rfl
        ⟨["rerank_results"], rfl⟩ hinv
  | synthesis_empty s h =>
      exact inv_default_extend s (response_synthesis_empty s) rfl
        ⟨["response_synthesis"], rfl⟩ hinv
  | synthesis_answered s answer related h =>
      exact inv_default_extend s (response_synthesis_answered s answer related) rfl
        ⟨["response_synthesis"], rfl⟩ hinv
  | synthesis_fallback s h =>
      exact inv_default_extend s (response_synthesis_fallback s) rfl
        ⟨["response_synthesis"], rfl⟩ hinv
  | synthesis_err s msg =>
      exact inv_default_extend s (response_synthesis_error s msg) rfl
        ⟨["response_synthesis"], rfl⟩ hinv
  | feedback_ok s now =>
      exact inv_default_extend s (feedback_learning_success s now)
        (updateTimestamps_pres (enterNode s "feedback_learning") now).1
        ⟨["feedback_learning"],
          (updateTimestamps_pres (enterNode s "feedback_learning") now).2⟩ hinv
  | feedback_err s now msg =>
      exact inv_default_extend s (feedback_learning_error s now msg)
        (updateTimestamps_pres (enterNode s "feedback_learning") now).1
        ⟨["feedback_learning"],
          (updateTimestamps_pres (enterNode s "feedback_learning") now).2⟩ hinv
  | gap_detect_ok s now =>
      have hbody := inv_default_extend s (knowledge_gap_detection_success s now)
        (kgd_success_pres s now).1
        ⟨["knowledge_gap_detection"], (kgd_success_pres s now).2⟩ hinv
      by_cases hr : (route_after_gap_detection (knowledge_gap_detection_success s now)
          == "wait_gap_approval") = true
      · unfold gapTarget
        rw [if_pos hr]
        exact hbody
      · unfold gapTarget
        rw [if_neg hr]
        exact hbody
  | gap_detect_err s msg =>
      have hbody := inv_default_extend s (knowledge_gap_detection_error s msg) rfl
        ⟨["knowledge_gap_detection"], rfl⟩ hinv
      by_cases hr : (route_after_gap_detection (knowledge_gap_detection_error s msg)
          == "wait_gap_approval") = true
      · unfold gapTarget
        rw [if_pos hr]
        exact hbody
      · unfold gapTarget
        rw [if_neg hr]
        exact hbody
  | wait_gap s =>
      exact inv_default_extend s (wait_for_gap_approval_handler s) rfl
        ⟨["wait_for_gap_approval"], rfl⟩ hinv
  | rejected s =>
      exact inv_default_extend s (approval_rejected_handler s) rfl
        ⟨["approval_rejected"], rfl⟩ hinv

/-- The approval-gate invariant holds in every reachable configuration. -/
theorem reaches_inv {c c' : Node × AgentState} (hinv : ApprovalWaitInv c)
    (h : Reaches c c') : ApprovalWaitInv c' := by
  induction h with
  | refl => exact hinv
  | tail _ hstep ih => exact approvalWaitInv_step _ _ ih hstep

/-- C3: in every execution of the query graph from a fresh session, a
state that reaches `response_synthesis` with the approval flag raised has
passed through `wait_for_approval`: the pipeline never skips the approval
suspension while approval is required. -/
theorem approval_gate_before_synthesis (query user_id : String)
    (user_teams : List String) (user_location user_type conversation_id : String)
    (start_ts : Int) (s : AgentState)
    (h : Reaches (.query_understanding,
          create_initial_state query user_id user_teams user_location user_type
            conversation_id start_ts)
        (.response_synthesis, s))
    (hreq : s.approval_required = true) :
    "wait_for_approval" ∈ s.execution_path := by
  have hinit : ApprovalWaitInv (.query_understanding,
      create_initial_state query user_id user_teams user_location user_type
        conversation_id start_ts) := rfl
  exact reaches_inv hinit h hreq

/-- A concrete paused-and-approved execution trace reaching
`response_synthesis`. -/
theorem wTraceApproval : Reaches (.query_understanding, w0) (.response_synthesis, w7) := by
  have h1 : Step (.query_understanding, w0) (.embedding_generation, w1) :=
    Step.query_understanding_ok w0 "search" [] [] []
  have h2 : Step (.embedding_generation, w1) (.hybrid_search, w2) :=
    Step.embedding_ok w1 []
  have h3 : Step (.hybrid_search, w2) (.permission_filter, w3) :=
    Step.search_ok w2 [wCand "d2" 2 wPermsOffshore]
  have ht4 : permissionFilterTarget
      (route_after_permission_filter (permission_filter_success w3)) =
      Node.wait_for_approval := by decide
  have h4 : Step (.permission_filter, w3) (.wait_for_approval, w4) :=
    ht4 ▸ Step.filter_ok w3
  have h5 : Step (.wait_for_approval, w4) (.wait_for_approval, w5) :=
    Step.approval_resolution w4 "approved" "boss" 2
  have ht6 : approvalTarget (route_after_approval (wait_for_approval_handler w5)) =
      Node.rerank_results := by decide
  have h6 : Step (.wait_for_approval, w5) (.rerank_results, w6) :=
    ht6 ▸ Step.wait_approval w5
  have h7 : Step (.rerank_results, w6) (.response_synthesis, w7) :=
    Step.rerank_ok w6
  exact Relation.ReflTransGen.head h1 (Relation.ReflTransGen.head h2
    (Relation.ReflTransGen.head h3 (Relation.ReflTransGen.head h4
      (Relation.ReflTransGen.head h5 (Relation.ReflTransGen.head h6
        (Relation.ReflTransGen.head h7 Relation.ReflTransGen.refl))))))

/-- Witness for C3 along the concrete trace `w0 … w7`. -/
theorem approval_gate_before_synthesis_witness :
    "wait_for_approval" ∈ w7.execution_path :=
  approval_gate_before_synthesis "q" "u" [] "IN" "employee" "c" 1 w7
    wTraceApproval (by decide)

/-- Witness for C4: a rejected approval at a concrete paused session. -/
theorem approval_rejected_terminal_denied_witness :
    ((Node.terminal, approval_rejected_handler w4) : Node × AgentState).2.response =
      some ("Access to some results was denied due to permissions. " ++
        "Please contact your administrator if you believe you should have access.") ∧
    (approval_rejected_handler w4).final_count = 0 :=
  ⟨(approval_rejected_terminal_denied w4 (Node.terminal, approval_rejected_handler w4)
      (Step.rejected w4)).2.1,
   (approval_rejected_terminal_denied w4 (Node.terminal, approval_rejected_handler w4)
      (Step.rejected w4)).2.2.2.2⟩

/-! ## Resumption of a terminal session (C6) -/

/-- A complete execution trace: the degraded run `t0 … t9` ends at the
graph's `END` with session state `t9`. -/
theorem wTraceTerminal : Reaches (.query_understanding, t0) (.terminal, t9) := by
  have h1 : Step (.query_understanding, t0) (.embedding_generation, t1) :=
    Step.query_understanding_ok t0 "search" [] [] []
  have h2 : Step (.embedding_generation, t1) (.hybrid_search, t2) :=
    Step.embedding_ok t1 []
  have h3 : Step (.hybrid_search, t2) (.permission_filter, t3) :=
    Step.search_ok t2 []
  have ht4 : permissionFilterTarget
      (route_after_permission_filter (permission_filter_success t3)) =
      Node.rerank_results := by decide
  have h4 : Step (.permission_filter, t3) (.rerank_results, t4) :=
    ht4 ▸ Step.filter_ok t3
  have h5 : Step (.rerank_results, t4) (.response_synthesis, t5) :=
    Step.rerank_ok t4
  have h6 : Step (.response_synthesis, t5) (.feedback_learning, t6) :=
    Step.synthesis_empty t5 (by decide)
  have h7 : Step (.feedback_learning, t6) (.knowledge_gap_detection, t7) :=
    Step.feedback_ok t6 4
  have ht8 : gapTarget
      (route_after_gap_detection (knowledge_gap_detection_success t7 5)) =
      Node.wait_for_gap_approval := by decide
  have h8 : Step (.knowledge_gap_detection, t7) (.wait_for_gap_approval, t8) :=
    ht8 ▸ Step.gap_detect_ok t7 5
  have h9 : Step (.wait_for_gap_approval, t8) (.terminal, t9) :=
    Step.wait_gap t8
  exact Relation.ReflTransGen.head h1 (Relation.ReflTransGen.head h2
    (Relation.ReflTransGen.head h3 (Relation.ReflTransGen.head h4
      (Relation.ReflTransGen.head h5 (Relation.ReflTransGen.head h6
        (Relation.ReflTransGen.head h7 (Relation.ReflTransGen.head h8
          (Relation.ReflTransGen.head h9 Relation.ReflTransGen.refl))))))))

/-- C6 counterexample: `t9` is a session that has reached the terminal
`END` configuration, yet `resume_after_approval` on its thread id does
not raise — it returns normally after re-invoking the graph.  The source
defines no `AlreadyTerminalError` at all. -/
theorem resume_terminal_no_error_counterexample :
    Reaches (.query_understanding, t0) (.terminal, t9) ∧
    resume_after_approval id wTerminalGetState "th1" "approved" "admin" 50 =
      .ok (set_approval_resolution t9 "approved" "admin" 50) :=
  ⟨wTraceTerminal, rfl⟩

/-- C6 (amended): `resume_after_approval` raises `ValueError` exactly for
a thread id with no checkpointed state; for every stored session —
terminal or not — it performs no terminal-state check and re-invokes the
graph on the state with the updated approval fields. -/
theorem resume_after_approval_behavior (invoke : AgentState → AgentState)
    (get_state : String → Option AgentState)
    (thread_id status approver : String) (now : Int) :
    (get_state thread_id = none →
      resume_after_approval invoke get_state thread_id status approver now =
        .error (.valueError ("No state found for thread_id: " ++ thread_id))) ∧
    (∀ s, get_state thread_id = some s →
      resume_after_approval invoke get_state thread_id status approver now =
        .ok (invoke (set_approval_resolution s status approver now))) := by
  constructor
  · intro hg
    simp [resume_after_approval, hg]
  · intro s hg
    simp [resume_after_approval, hg]

/-- Witness for the amended C6 at the stored terminal session `t9`. -/
theorem resume_after_approval_behavior_witness :
    resume_after_approval id wTerminalGetState "th1" "approved" "admin" 50 =
      .ok (set_approval_resolution t9 "approved" "admin" 50) :=
  (resume_after_approval_behavior id wTerminalGetState "th1" "approved"
    "admin" 50).2 t9 rfl

/-! ## Gap detection theorems (C7, C8, C9) -/

/-- C7: `detect_knowledge_gaps` returns a gap id (and records or updates
the gap) exactly when at least `GAP_MIN_SEARCH_COUNT = 10` similar
historical queries were retrieved and the mean of their recorded
top-result scores is strictly below `GAP_MAX_AVG_SCORE = 0.4`; in every
other case it returns `none` and leaves the gap ledger untouched. -/
theorem detect_knowledge_gaps_condition (h : String → Int) (gaps : GapStore)
    (similar_queries : List ConvPayload) (query_text user_id : String)
    (now : Int) :
    ((detect_knowledge_gaps h gaps similar_queries query_text user_id now).1 =
        some (gapKey h query_text) ↔ gapCondition similar_queries) ∧
    (¬ gapCondition similar_queries →
      detect_knowledge_gaps h gaps similar_queries query_text user_id now =
        (none, gaps)) := by
  simp only [detect_knowledge_gaps, List.length_map]
  by_cases h1 : QdrantConfig.GAP_MIN_SEARCH_COUNT ≤ similar_queries.length
  · rw [if_pos h1]
    by_cases h2 : (if similar_queries.length = 0 then (0 : ℚ)
        else (similar_queries.map (fun q => q.top_result_score)).sum /
          (similar_queries.length : ℚ)) < QdrantConfig.GAP_MAX_AVG_SCORE
    · rw [if_pos h2]
      exact ⟨⟨fun _ => ⟨h1, h2⟩, fun _ => rfl⟩, fun hn => absurd ⟨h1, h2⟩ hn⟩
    · rw [if_neg h2]
      exact ⟨⟨fun hx => Option.noConfusion hx, fun hc => absurd hc.2 h2⟩,
        fun _ => rfl⟩
  · rw [if_neg h1]
    exact ⟨⟨fun hx => Option.noConfusion hx, fun hc => absurd hc.1 h1⟩,
      fun _ => rfl⟩

/-- The concrete cluster of twelve zero-quality similar queries satisfies
the gap branch condition. -/
theorem wConvs_gapCondition : gapCondition wConvs := by
  constructor
  · simp [wConvs, QdrantConfig.GAP_MIN_SEARCH_COUNT]
  · simp [wConvs, QdrantConfig.GAP_MAX_AVG_SCORE, List.sum_replicate]

/-- Witness for C7 on the concrete cluster `wConvs`. -/
theorem detect_knowledge_gaps_condition_witness :
    (detect_knowledge_gaps wHash [] wConvs "how to rollback a database migration"
        "alice" 50).1 =
      some (gapKey wHash "how to rollback a database migration") :=
  ((detect_knowledge_gaps_condition wHash [] wConvs
      "how to rollback a database migration" "alice" 50).1).mpr wConvs_gapCondition

theorem lookup_map_replace : ∀ (store : GapStore) (k : String) (v : GapData),
    store.any (fun p => p.1 == k) = true →
    (store.map (fun p => if p.1 == k then (k, v) else p)).lookup k = some v := by
  intro store k v
  induction store with
  | nil => intro hany; simp at hany
  | cons hd tl ih =>
    intro hany
    obtain ⟨k1, v1⟩ := hd
    rw [List.map_cons]
    dsimp only
    by_cases hk : (k1 == k) = true
    · rw [if_pos hk]
      have hkk : k1 = k := by simpa using hk
      subst hkk
      simp [List.lookup]
    · rw [if_neg hk]
      have hne : k1 ≠ k := by simpa using hk
      have hk' : (k == k1) = false := beq_eq_false_iff_ne.mpr (Ne.symm hne)
      have htl : tl.any (fun p => p.1 == k) = true := by
        rcases (List.any_eq_true).mp hany with ⟨p, hp, hpk⟩
        rcases List.mem_cons.mp hp with rfl | hp
        · exact absurd hpk (by simpa using hne)
        · exact (List.any_eq_true).mpr ⟨p, hp, hpk⟩
      simp only [List.lookup, hk']
      exact ih htl

theorem lookup_append_new : ∀ (store : GapStore) (k : String) (v : GapData),
    store.any (fun p => p.1 == k) = false →
    (store ++ [(k, v)]).lookup k = some v := by
  intro store k v
  induction store with
  | nil => simp [List.lookup]
  | cons hd tl ih =>
    intro hany
    obtain ⟨k1, v1⟩ := hd
    rw [List.any_cons] at hany
    have h1 : (k1 == k) = false := by
      cases hx : (k1 == k)
      · rfl
      · rw [show ((k1, v1).1 == k) = true from hx] at hany
        simp at hany
    have h2 : tl.any (fun p => p.1 == k) = false := by
      cases hx : tl.any (fun p => p.1 == k)
      · rfl
      · rw [hx] at hany
        simp at hany
    have hne : k1 ≠ k := beq_eq_false_iff_ne.mp h1
    have hk' : (k == k1) = false := beq_eq_false_iff_ne.mpr (Ne.symm hne)
    rw [List.cons_append]
    simp only [List.lookup, hk']
    exact ih h2

/-- A Qdrant upsert makes the upserted payload the one retrieved under
its id. -/
theorem gapLookup_gapUpsert (store : GapStore) (k : String) (v : GapData) :
    gapLookup (gapUpsert store k v) k = some v := by
  unfold gapUpsert gapLookup
  by_cases hany : store.any (fun p => p.1 == k) = true
  · rw [if_pos hany]
    exact lookup_map_replace store k v hany
  · rw [if_neg hany]
    have hf : store.any (fun p => p.1 == k) = false := by
      cases hx : store.any (fun p => p.1 == k)
      · rfl
      · exact absurd hx hany
    exact lookup_append_new store k v hf

/-- C8 (amended): when a qualifying query hits an existing gap record,
the update increments the occurrence count by one, appends the query text
to the stored patterns, refreshes the last-query timestamp, and raises
the priority to `high` when the distinct-user count (stored set plus the
querying user) exceeds `GAP_HIGH_PRIORITY_USER_COUNT = 5`, leaving it
unchanged otherwise; the stored distinct-user set and the stored rolling
average quality are left unchanged. -/
theorem gap_update_behavior (h : String → Int) (gaps : GapStore)
    (similar_queries : List ConvPayload) (query_text user_id : String)
    (now : Int) (g : GapData)
    (hex : gapLookup gaps (gapKey h query_text) = some g)
    (hcond : gapCondition similar_queries) :
    gapLookup (detect_knowledge_gaps h gaps similar_queries query_text user_id
        now).2 (gapKey h query_text) =
      some { g with
        query_count := g.query_count + 1
        query_patterns := g.query_patterns ++ [query_text]
        last_query := now
        priority :=
          if QdrantConfig.GAP_HIGH_PRIORITY_USER_COUNT <
              ((g.unique_users ++ [user_id]).dedup).length
          then "high" else g.priority } := by
  obtain ⟨h1, h2⟩ := hcond
  simp only [detect_knowledge_gaps, List.length_map]
  rw [if_pos h1, if_pos h2, hex]
  exact gapLookup_gapUpsert gaps (gapKey h query_text) _

/-- Witness for the amended C8: updating the stored gap `wGap0` with a
thirteenth occurrence by user `u2`. -/
theorem gap_update_behavior_witness :
    gapLookup (detect_knowledge_gaps wHash [("gap_42", wGap0)] wConvs "q" "u2"
        50).2 (gapKey wHash "q") = some wGapAfter := by
  have hb := gap_update_behavior wHash [("gap_42", wGap0)] wConvs "q" "u2" 50
    wGap0 rfl wConvs_gapCondition
  rw [hb]
  exact congrArg some rfl

/-- Direct evaluation of the update path on the stored gap `wGap0`. -/
theorem wDetectUpdate_eval :
    gapLookup (detect_knowledge_gaps wHash [("gap_42", wGap0)] wConvs "q" "u2"
        50).2 "gap_42" = some wGapAfter := by
  obtain ⟨h1, h2⟩ := wConvs_gapCondition
  simp only [detect_knowledge_gaps, List.length_map]
  rw [if_pos h1, if_pos h2]
  rfl

/-- C8 counterexample: after the thirteenth occurrence of the pattern by
the new user `u2`, the stored record still carries the original
distinct-user set (now missing `u2`) and the original rolling average —
the update stores neither the enlarged user set nor a recomputed
average. -/
theorem gap_update_drops_user_counterexample :
    gapLookup (detect_knowledge_gaps wHash [("gap_42", wGap0)] wConvs "q" "u2"
        50).2 "gap_42" = some wGapAfter ∧
    "u2" ∉ wGapAfter.unique_users ∧
    wGapAfter.avg_result_quality = wGap0.avg_result_quality ∧
    wGapAfter.query_count = wGap0.query_count + 1 :=
  ⟨wDetectUpdate_eval, by decide, rfl, rfl⟩

/-- C9 (code bug): the gap id is derived from the runtime string hash, so
two processes whose hashes differ on the same query text compute
different gap ids — the key is not a function of the query text alone. -/
theorem gap_key_not_process_stable :
    gapKey (fun _ => 0) "how to rollback a database migration" = "gap_0" ∧
    gapKey (fun _ => 1) "how to rollback a database migration" = "gap_1" ∧
    (gapKey (fun _ => 0) "how to rollback a database migration" ==
      gapKey (fun _ => 1) "how to rollback a database migration") = false := by
  decide

/-! ## Expertise ranking theorems (C10) -/

theorem mem_insertDescBy (key : α → ℚ) (x : α) (l : List α) (b : α) :
    b ∈ insertDescBy key x l ↔ b = x ∨ b ∈ l := by
  induction l with
  | nil => simp [insertDescBy]
  | cons y ys ih =>
    rw [insertDescBy]
    by_cases h : key x ≤ key y
    · rw [if_pos h]
      simp only [List.mem_cons, ih]
      tauto
    · rw [if_neg h]
      simp only [List.mem_cons]

theorem pairwise_insertDescBy (key : α → ℚ) (x : α) (l : List α)
    (hl : l.Pairwise (fun a b => key b ≤ key a)) :
    (insertDescBy key x l).Pairwise (fun a b => key b ≤ key a) := by
  induction l with
  | nil => simp [insertDescBy]
  | cons y ys ih =>
    rw [insertDescBy]
    rcases List.pairwise_cons.mp hl with ⟨hy, hys⟩
    by_cases h : key x ≤ key y
    · rw [if_pos h]
      refine List.pairwise_cons.mpr ⟨?_, ih hys⟩
      intro b hb
      rcases (mem_insertDescBy key x ys b).mp hb with rfl | hb
      · exact h
      · exact hy b hb
    · rw [if_neg h]
      have hxy : key y ≤ key x := le_of_not_le h
      refine List.pairwise_cons.mpr ⟨?_, hl⟩
      intro b hb
      rcases List.mem_cons.mp hb with rfl | hb
      · exact hxy
      · exact le_trans (hy b hb) hxy

theorem pairwise_pySortDescBy (key : α → ℚ) (l : List α) :
    (pySortDescBy key l).Pairwise (fun a b => key b ≤ key a) := by
  unfold pySortDescBy
  suffices h : ∀ acc : List α, acc.Pairwise (fun a b => key b ≤ key a) →
      (l.foldl (fun acc x => insertDescBy key x acc) acc).Pairwise
        (fun a b => key b ≤ key a) from h [] List.Pairwise.nil
  induction l with
  | nil => intro acc hacc; exact hacc
  | cons x xs ih =>
    intro acc hacc
    exact ih _ (pairwise_insertDescBy key x acc hacc)

theorem mem_pySortDescBy (key : α → ℚ) (l : List α) (b : α) :
    b ∈ pySortDescBy key l ↔ b ∈ l := by
  unfold pySortDescBy
  suffices h : ∀ acc : List α,
      b ∈ l.foldl (fun acc x => insertDescBy key x acc) acc ↔
        b ∈ acc ∨ b ∈ l by
    simpa using h []
  induction l with
  | nil => intro acc; simp
  | cons x xs ih =>
    intro acc
    rw [List.foldl_cons, ih (insertDescBy key x acc), mem_insertDescBy]
    simp only [List.mem_cons]
    tauto

theorem filter_eq_nil_of_any_false {α : Type} {p : α → Bool} {l : List α}
    (h : l.any p = false) : l.filter p = [] := by
  induction l with
  | nil => rfl
  | cons x xs ih =>
    rw [List.any_cons] at h
    have hx : p x = false := by
      cases hp : p x
      · rfl
      · rw [hp] at h; simp at h
    have hxs : xs.any p = false := by
      cases hp : xs.any p
      · rfl
      · rw [hp] at h; simp at h
    rw [List.filter_cons, hx]
    simpa using ih hxs

/-- One `addExpertisePoint` step keeps the per-user totals equal to the
score sums over the processed prefix of the search results. -/
theorem addExpertisePoint_total (acc : List ExpertEntry) (r : ExpertisePoint)
    (pre : List ExpertisePoint)
    (h1 : ∀ e ∈ acc, e.total_score =
      ((pre.filter (fun q => q.user_id == e.user_id)).map
        (fun q => q.expertise_score)).sum)
    (h2 : ∀ uid : String, acc.any (fun e => e.user_id == uid) =
      pre.any (fun q => q.user_id == uid)) :
    ∀ e ∈ addExpertisePoint acc r, e.total_score =
      (((pre ++ [r]).filter (fun q => q.user_id == e.user_id)).map
        (fun q => q.expertise_score)).sum := by
  intro e he
  simp only [addExpertisePoint] at he
  by_cases hseen : acc.any (fun e => e.user_id == r.user_id) = true
  · rw [if_pos hseen] at he
    rcases List.mem_map.mp he with ⟨e0, he0, rfl⟩
    have he0tot := h1 e0 he0
    by_cases hm : (e0.user_id == r.user_id) = true
    · have hmeq : e0.user_id = r.user_id := by simpa using hm
      rw [if_pos hm]
      simp only [List.filter_append, List.map_append, List.sum_append]
      rw [List.filter_cons]
      have hrm : (r.user_id == e0.user_id) = true := by
        simp [hmeq]
      rw [hrm]
      simp [he0tot]
    · rw [if_neg hm]
      have hne : e0.user_id ≠ r.user_id := by simpa using hm
      simp only [List.filter_append, List.map_append, List.sum_append]
      rw [List.filter_cons]
      have hrm : (r.user_id == e0.user_id) = false :=
        beq_eq_false_iff_ne.mpr (Ne.symm hne)
      rw [hrm]
      simpa using he0tot
  · rw [if_neg hseen] at he
    rcases List.mem_map.mp he with ⟨e0, he0, rfl⟩
    rcases List.mem_append.mp he0 with he0 | he0
    · -- an old entry: its user differs from `r.user_id` (otherwise the
      -- `any` check would have succeeded), so nothing changes.
      have hne : e0.user_id ≠ r.user_id := by
        intro hEq
        exact hseen (List.any_eq_true.mpr ⟨e0, he0, by simp [hEq]⟩)
      have hm : (e0.user_id == r.user_id) = false := beq_eq_false_iff_ne.mpr hne
      rw [if_neg (by simp [hm])]
      simp only [List.filter_append, List.map_append, List.sum_append]
      rw [List.filter_cons]
      have hrm : (r.user_id == e0.user_id) = false :=
        beq_eq_false_iff_ne.mpr (Ne.symm hne)
      rw [hrm]
      simpa using h1 e0 he0
    · -- the freshly inserted zero entry for `r.user_id`
      have he0' : e0 = { user_id := r.user_id,
                         user_name := r.user_name.getD r.user_id,
                         total_score := 0, evidence := [], topics := [] } := by
        simpa using he0
      subst he0'
      rw [if_pos (by simp)]
      have hanyf : acc.any (fun e => e.user_id == r.user_id) = false := by
        cases hv : acc.any (fun e => e.user_id == r.user_id)
        · rfl
        · exact absurd hv hseen
      have hpre : pre.any (fun q => q.user_id == r.user_id) = false :=
        (h2 r.user_id) ▸ hanyf
      have hfil : pre.filter (fun q => q.user_id == r.user_id) = [] :=
        filter_eq_nil_of_any_false hpre
      simp only [List.filter_append, List.map_append, List.sum_append]
      rw [List.filter_cons]
      simp [hfil]

/-- One `addExpertisePoint` step keeps the set of aggregated user ids
equal to the set of user ids seen in the processed prefix. -/
theorem addExpertisePoint_any (acc : List ExpertEntry) (r : ExpertisePoint)
    (pre : List ExpertisePoint)
    (h2 : ∀ uid : String, acc.any (fun e => e.user_id == uid) =
      pre.any (fun q => q.user_id == uid)) :
    ∀ uid : String, (addExpertisePoint acc r).any (fun e => e.user_id == uid) =
      (pre ++ [r]).any (fun q => q.user_id == uid) := by
  intro uid
  have hmapid : ∀ l : List ExpertEntry,
      (l.map (fun e =>
        if e.user_id == r.user_id then
          { e with total_score := e.total_score + r.expertise_score,
                   evidence := e.evidence ++ r.evidence,
                   topics := e.topics ++ [r.topic] }
        else e)).any (fun e => e.user_id == uid) =
      l.any (fun e => e.user_id == uid) := by
    intro l
    induction l with
    | nil => rfl
    | cons x xs ih =>
      rw [List.map_cons, List.any_cons, List.any_cons, ih]
      by_cases hx : (x.user_id == r.user_id) = true
      · rw [if_pos hx]
      · rw [if_neg hx]
  simp only [addExpertisePoint]
  by_cases hseen : acc.any (fun e => e.user_id == r.user_id) = true
  · rw [if_pos hseen, hmapid, h2 uid, List.any_append, List.any_cons,
      List.any_nil]
    by_cases hu : (r.user_id == uid) = true
    · have huEq : r.user_id = uid := by simpa using hu
      have hp : pre.any (fun q => q.user_id == uid) = true := by
        rw [← huEq, ← h2 r.user_id]
        exact hseen
      rw [hp, hu]
      rfl
    · have hu' : (r.user_id == uid) = false := by
        cases hv : (r.user_id == uid)
        · rfl
        · exact absurd hv hu
      rw [hu']
      simp
  · rw [if_neg hseen, hmapid, List.any_append, List.any_cons, List.any_nil,
      List.any_append, List.any_cons, List.any_nil, h2 uid]

/-- The aggregation fold of `get_expertise_data` computes, for every
produced entry, the sum of the scores of the matching search results. -/
theorem foldl_addExpertisePoint_totals :
    ∀ (results : List ExpertisePoint) (pre : List ExpertisePoint)
      (acc : List ExpertEntry),
    (∀ e ∈ acc, e.total_score =
      ((pre.filter (fun q => q.user_id == e.user_id)).map
        (fun q => q.expertise_score)).sum) →
    (∀ uid : String, acc.any (fun e => e.user_id == uid) =
      pre.any (fun q => q.user_id == uid)) →
    ∀ e ∈ results.foldl addExpertisePoint acc, e.total_score =
      (((pre ++ results).filter (fun q => q.user_id == e.user_id)).map
        (fun q => q.expertise_score)).sum := by
  intro results
  induction results with
  | nil =>
    intro pre acc h1 h2
    simpa using h1
  | cons r rs ih =>
    intro pre acc h1 h2
    rw [List.foldl_cons]
    have := ih (pre ++ [r]) (addExpertisePoint acc r)
      (addExpertisePoint_total acc r pre h1 h2)
      (addExpertisePoint_any acc r pre h2)
    simpa [List.append_assoc] using this

/-- C10 (amended): the expert ranking aggregates all matching expertise
records per user and sums their raw scores — applying no recency
down-weighting — and returns at most `limit` users sorted by the
undecayed total score in descending order. -/
theorem get_expertise_data_ranking (results : List ExpertisePoint)
    (limit : Nat) :
    List.Pairwise (fun a b => b.total_score ≤ a.total_score)
      (get_expertise_data results limit) ∧
    (∀ e ∈ get_expertise_data results limit,
      e.total_score =
        ((results.filter (fun q => q.user_id == e.user_id)).map
          (fun q => q.expertise_score)).sum) ∧
    (get_expertise_data results limit).length ≤ limit := by
  refine ⟨?_, ?_, ?_⟩
  · have hp := pairwise_pySortDescBy (fun e => e.total_score)
      (results.foldl addExpertisePoint [])
    exact List.Pairwise.sublist (List.take_sublist _ _) hp
  · intro e he
    have he2 : e ∈ pySortDescBy (fun e => e.total_score)
        (results.foldl addExpertisePoint []) :=
      List.take_subset _ _ he
    have he3 : e ∈ results.foldl addExpertisePoint [] :=
      (mem_pySortDescBy _ _ _).mp he2
    have := foldl_addExpertisePoint_totals results [] [] (by simp) (by simp)
      e he3
    simpa using this
  · exact List.length_take_le _ _

/-- Concrete evaluation of the ranking on one stale strong contributor
and one fresh slightly weaker one. -/
theorem wExpertise_eval :
    get_expertise_data [wAlicePt, wBobPt] 5 = [wAliceEntry, wBobEntry] := by
  have hab : ("alice" : String) ≠ "bob" := by decide
  have hba : ("bob" : String) ≠ "alice" := by decide
  norm_num [get_expertise_data, addExpertisePoint, pySortDescBy, insertDescBy,
    wAlicePt, wBobPt, wAliceEntry, wBobEntry, hab, hba]

/-- C10 counterexample: the code ranks the stale 10-point contributor
above the fresh 9-point one, although the spec's recency decay gives the
stale contributor a decayed total of 5 against 9 — the returned order is
not descending in the decayed total score. -/
theorem expertise_ranking_ignores_recency_counterexample :
    (get_expertise_data [wAlicePt, wBobPt] 5).map (fun e => e.user_id) =
      ["alice", "bob"] ∧
    spec_decayed_total_score (200 * 86400) [wAlicePt, wBobPt] "alice" = 5 ∧
    spec_decayed_total_score (200 * 86400) [wAlicePt, wBobPt] "bob" = 9 ∧
    spec_decayed_total_score (200 * 86400) [wAlicePt, wBobPt] "alice" <
      spec_decayed_total_score (200 * 86400) [wAlicePt, wBobPt] "bob" := by
  have hab : ("alice" : String) ≠ "bob" := by decide
  have hba : ("bob" : String) ≠ "alice" := by decide
  have hAliceDecay :
      spec_decayed_total_score (200 * 86400) [wAlicePt, wBobPt] "alice" = 5 := by
    norm_num [spec_decayed_total_score, spec_recency_multiplier, wAlicePt,
      wBobPt, hab, hba]
  have hBobDecay :
      spec_decayed_total_score (200 * 86400) [wAlicePt, wBobPt] "bob" = 9 := by
    norm_num [spec_decayed_total_score, spec_recency_multiplier, wAlicePt,
      wBobPt, hab, hba]
  refine ⟨?_, hAliceDecay, hBobDecay, ?_⟩
  · rw [wExpertise_eval]
    rfl
  · rw [hAliceDecay, hBobDecay]
    norm_num

/-- Witness for the amended C10 at the concrete two-expert ranking. -/
theorem get_expertise_data_ranking_witness :
    wAliceEntry.total_score =
      (([wAlicePt, wBobPt].filter
        (fun q => q.user_id == wAliceEntry.user_id)).map
          (fun q => q.expertise_score)).sum :=
  (get_expertise_data_ranking [wAlicePt, wBobPt] 5).2.1 wAliceEntry
    (by rw [wExpertise_eval]; exact List.mem_cons_self _ _)

end EngineIQ
